import Mathlib

/-!
Verification development for the slackhq/node-slack-sdk core: the inbound
webhook handler with its signature verifier, the outbound dispatch path of
the WebClient, the concurrency-limited request queue, the backoff policy,
and the small utilities.

The inbound handler (http-handler.ts), the retry policies, the callbackify
utility and the queue implementation are not present in the repository
sources here (only their tests, callers or configuration are), so those
components are modelled from the specification; each such definition says
so in its doc comment. Everything else is translated directly from the
source files.
-/

namespace Spec2Proof

/-! ## Inbound: signature verifier and webhook handler -/

/-- Classified reason of a verification failure. The reason is recoverable
for diagnostics but never surfaced to the remote peer. -/
inductive VerifyFailure where
  | staleTimestamp
  | signatureMismatch
deriving DecidableEq, Repr

/-- Modelled from the spec: http-handler.ts is not under src/ (only its test
file is). Spec section 4.5 step 2: the basestring is the exact byte
concatenation of the version tag, the timestamp header and the raw body. -/
def basestring (ts : Int) (body : String) : String :=
  "v0:" ++ toString ts ++ ":" ++ body

/-- Modelled from the spec: http-handler.ts is not under src/. Spec section
4.5 step 3: the expected signature is the v0= tag followed by the hex HMAC
of the basestring under the signing secret. The MAC primitive is a
parameter: the claims depend on the comparison structure, not on SHA-256
internals. -/
def computedSignature (mac : String → String → String) (secret : String)
    (ts : Int) (body : String) : String :=
  "v0=" ++ mac secret (basestring ts body)

/-- Modelled from the spec: verifyRequestSignature of http-handler.ts is not
under src/. Spec section 4.5: the freshness check (five minute tolerance on
the timestamp) runs before the signature comparison; on failure the outcome
carries a classified reason. -/
def verifyRequestSignature (mac : String → String → String) (secret : String)
    (ts : Int) (signatureHeader : String) (body : String) (now : Int) :
    Except VerifyFailure Unit :=
  if 300 < (now - ts).natAbs then
    .error .staleTimestamp
  else if signatureHeader = computedSignature mac secret ts body then
    .ok ()
  else
    .error .signatureMismatch

/-- The shape of a parsed inbound JSON body that the dispatch decision
inspects: the type tag and the challenge value. -/
structure ParsedBody where
  ty : Option String
  challenge : Option String
deriving DecidableEq, Repr

/-- Result returned by the application event consumer: an optional response
status (defaulting to 200) and an optional response body. -/
structure EmitResult where
  status : Option Nat
  body : Option String
deriving DecidableEq, Repr

/-- One inbound HTTP request as the handler sees it: timestamp and signature
headers, whether the transport layer already parsed the body into structured
form, the preserved raw bytes attribute when present, and the result of
reading the body stream (which can fail). -/
structure InboundRequest where
  timestamp : Int
  signature : String
  hasParsedBody : Bool
  rawBodyAttr : Option String
  streamBody : Except String String
deriving Repr

/-- The collaborators of the handler: the MAC primitive, the JSON parse of
the raw body, the application event consumer, the current time of the
verifier, and whether the verbose-errors (development) mode is enabled. -/
structure HandlerDeps where
  mac : String → String → String
  parse : String → Except String ParsedBody
  emit : ParsedBody → Except String EmitResult
  now : Int
  verboseErrors : Bool

/-- The externally observable outcome of handling one inbound request: the
response status and body, whether the identification header was set, and
the payloads emitted to the application event consumer. -/
structure HandlerResponse where
  status : Nat
  body : Option String
  identificationHeader : Bool
  emitted : List ParsedBody
deriving DecidableEq, Repr

/-- Modelled from the spec: the internal-failure response of
http-handler.ts. Spec section 4.6: status 500, body empty unless the
verbose-errors mode is enabled, in which case the body is exactly the
message of the error; the identification header is set as on every branch. -/
def internalFailure (verbose : Bool) (msg : String) : HandlerResponse :=
  { status := 500
    body := if verbose then some msg else none
    identificationHeader := true
    emitted := [] }

/-- Modelled from the spec: body acquisition of http-handler.ts. Spec
section 4.6, transition START to BODY_READ: if the transport already parsed
the body into structured form, the preserved raw bytes are used when
present, and the request is unverifiable when they are absent; otherwise
the body stream is read, which can fail. -/
def acquireBody (req : InboundRequest) : Except String String :=
  if req.hasParsedBody then
    match req.rawBodyAttr with
    | some raw => .ok raw
    | none => .error "request body is parsed but the raw body is unavailable"
  else
    req.streamBody

/-- Modelled from the spec: the verified branch of http-handler.ts. Spec
section 4.6: parse the body as JSON; on a url_verification type respond 200
echoing the challenge verbatim without emitting to the application;
otherwise emit to the application event consumer, whose returned status
(default 200) and body become the response; a failing parse or a failing
consumer is an internal failure. -/
def handleVerified (deps : HandlerDeps) (raw : String) : HandlerResponse :=
  match deps.parse raw with
  | .error msg => internalFailure deps.verboseErrors msg
  | .ok pb =>
    if pb.ty = some "url_verification" then
      { status := 200
        body := pb.challenge
        identificationHeader := true
        emitted := [] }
    else
      match deps.emit pb with
      | .error msg => internalFailure deps.verboseErrors msg
      | .ok er =>
        { status := er.status.getD 200
          body := er.body
          identificationHeader := true
          emitted := [pb] }

/-- Modelled from the spec: createHTTPHandler of http-handler.ts is not
under src/ (only its test file is). Spec section 4.6: acquire the raw body
(failures become 500 responses), verify the signature (failures become 404
responses, stale timestamp and signature mismatch indistinguishable), then
run the verified branch; every branch sets the identification header, and
every failure becomes an HTTP response rather than a fault. -/
def createHTTPHandler (deps : HandlerDeps) (secret : String)
    (req : InboundRequest) : HandlerResponse :=
  match acquireBody req with
  | .error msg => internalFailure deps.verboseErrors msg
  | .ok raw =>
    match verifyRequestSignature deps.mac secret req.timestamp req.signature
        raw deps.now with
    | .error _ =>
      { status := 404
        body := none
        identificationHeader := true
        emitted := [] }
    | .ok _ => handleVerified deps raw

/-! ## Utilities: isFalsy (packages/events-api/src/util.ts) -/

/-- A JavaScript value as far as isFalsy can distinguish values: numbers
(with NaN separate, since NaN is not strictly equal to anything), strings,
null, undefined and booleans. -/
inductive JSVal where
  | num (q : ℚ)
  | nan
  | str (s : String)
  | null
  | undefined
  | bool (b : Bool)
deriving DecidableEq, Repr

/-- The JavaScript typeof operator on the modelled values. -/
def jsTypeof : JSVal → String
  | .num _ => "number"
  | .nan => "number"
  | .str _ => "string"
  | .null => "object"
  | .undefined => "undefined"
  | .bool _ => "boolean"

/-- Number.isNaN on the modelled values. -/
def numberIsNaN : JSVal → Bool
  | .nan => true
  | _ => false

/-- JavaScript strict equality on the modelled values: NaN is not strictly
equal to anything, including itself. -/
def strictEq : JSVal → JSVal → Bool
  | .nan, _ => false
  | _, .nan => false
  | a, b => decide (a = b)

/-- Translated from isFalsy in packages/events-api/src/util.ts: x === 0,
x === the empty string, x === null, x === undefined, or typeof x is number
and Number.isNaN x. -/
def isFalsy (x : JSVal) : Bool :=
  strictEq x (.num 0) || strictEq x (.str "") || strictEq x .null
    || strictEq x .undefined || (jsTypeof x == "number" && numberIsNaN x)

/-! ## Outbound: WebClient.apiCall (src/unnamed/part_000) -/

/-- The parsed JSON body of a Web API response as far as classification
needs it: the ok success indicator and the platform-reported error code. -/
structure SlackJson where
  ok : Bool
  error : Option String
deriving DecidableEq, Repr

/-- Observable effects of one apiCall invocation: the number of work units
submitted to the request queue and the number of direct transport calls
issued. -/
structure ApiCallEffects where
  queueSubmits : Nat
  transportCalls : Nat
deriving DecidableEq, Repr

/-- Translated from WebClient.apiCall in src/unnamed/part_000 lines 118 to
147: the implementation closure posts directly to slackApiUrl ++ method via
got (with retries set to 0), parses the response body as JSON (rethrowing a
parse error), and returns the parsed body unconditionally, with no check of
the ok field (the error handling is a TODO in the source) and with no use
of the requestQueue or of the retry configuration. The HTTP post and the
JSON parse are parameters; the effect record counts queue submissions and
transport calls. -/
def apiCall (post : String → Except String String)
    (parseJson : String → Except String SlackJson)
    (slackApiUrl method : String) :
    Except String SlackJson × ApiCallEffects :=
  match post (slackApiUrl ++ method) with
  | .error e => (.error e, { queueSubmits := 0, transportCalls := 1 })
  | .ok respBody =>
    match parseJson respBody with
    | .error e => (.error e, { queueSubmits := 0, transportCalls := 1 })
    | .ok j => (.ok j, { queueSubmits := 0, transportCalls := 1 })

/-- One invocation of the user-supplied callback: an error argument or a
result argument. -/
structure CallbackInvocation where
  err : Option String
  result : Option SlackJson
deriving DecidableEq, Repr

/-- Modelled from the spec: callbackify (imported from ../util in
src/unnamed/part_000) is not under src/. Spec sections 4.4 and 9: when a
callback is supplied, the dispatcher runs the same promise-producing
implementation, then converts resolution into a callback invocation with
the result and rejection into a callback invocation with the error,
invoking the callback exactly once and never throwing synchronously into
the caller. The returned list records every callback invocation. -/
def apiCallWithCallback (post : String → Except String String)
    (parseJson : String → Except String SlackJson)
    (slackApiUrl method : String) :
    List CallbackInvocation × ApiCallEffects :=
  match apiCall post parseJson slackApiUrl method with
  | (.error e, eff) => ([{ err := some e, result := none }], eff)
  | (.ok j, eff) => ([{ err := none, result := some j }], eff)

/-! ## Concurrency-limited queue -/

/-- State of the concurrency-limited queue: the fixed concurrency bound,
the tasks waiting for a slot in submission order, the tasks currently
executing, and two history fields recording the admission order and the
submission order. -/
structure QueueState where
  concurrency : Nat
  waiting : List Nat
  running : List Nat
  admitted : List Nat
  submitted : List Nat
deriving DecidableEq, Repr

/-- The empty queue with concurrency bound k. -/
def QueueState.init (k : Nat) : QueueState :=
  { concurrency := k, waiting := [], running := [], admitted := [],
    submitted := [] }

/-- Modelled from the spec: the queue implementation (the PQueue instance
constructed in src/unnamed/part_000 line 88) is not under src/. Spec
section 4.2: submission appends the task to the waiting line; a task is
admitted only when a slot is free and only from the head of the waiting
line; a finishing task frees its slot regardless of whether it succeeded
or failed. -/
inductive QueueStep : QueueState → QueueState → Prop
  | submit (s : QueueState) (t : Nat) :
      QueueStep s
        { concurrency := s.concurrency, waiting := s.waiting ++ [t],
          running := s.running, admitted := s.admitted,
          submitted := s.submitted ++ [t] }
  | admitNext (s : QueueState) (t : Nat) (rest : List Nat) :
      s.running.length < s.concurrency → s.waiting = t :: rest →
      QueueStep s
        { concurrency := s.concurrency, waiting := rest,
          running := s.running ++ [t], admitted := s.admitted ++ [t],
          submitted := s.submitted }
  | finish (s : QueueState) (t : Nat) (outcomeOk : Bool) :
      t ∈ s.running →
      QueueStep s
        { concurrency := s.concurrency, waiting := s.waiting,
          running := s.running.erase t, admitted := s.admitted,
          submitted := s.submitted }

/-- A queue state reachable from the empty queue with concurrency k by any
pattern of submissions, admissions and completions. -/
def QueueReachable (k : Nat) (s : QueueState) : Prop :=
  Relation.ReflTransGen QueueStep (QueueState.init k) s

/-! ## Backoff policy -/

/-- Modelled from the spec: retry-policies (imported in
src/unnamed/part_000 line 4) is not under src/. Spec section 4.1: the
exponential delay for attempt n is the base delay scaled by the factor
raised to n - 1, capped at the configured maximum. -/
def expCappedDelay (minTimeout factor maxTimeout : ℚ) (n : Nat) : ℚ :=
  min (minTimeout * factor ^ (n - 1)) maxTimeout

/-- Modelled from the spec: the jittered variant behind
retryForeverExponentialCappedRandom (the default retryConfig in
src/unnamed/part_000 line 79) is not under src/. Spec section 4.1: the
jittered delay is the exponential-with-cap delay scaled by a per-attempt
uniform random factor in the unit interval; the random source r is a
parameter so a fixed source can be injected. -/
def jitteredExpCappedDelay (r : Nat → ℚ) (minTimeout factor maxTimeout : ℚ)
    (n : Nat) : ℚ :=
  r n * expCappedDelay minTimeout factor maxTimeout n

/-! ## Concrete fixtures used by the witnesses -/

/-- A concrete MAC primitive for concrete evaluation of the verifier. -/
def macW : String → String → String := fun s b => s ++ "|" ++ b

/-- Concrete handler collaborators: a parse function recognizing one
url_verification body and one event body, a consumer answering status 200,
current time 1000, verbose errors disabled. -/
def depsW : HandlerDeps :=
  { mac := macW
    parse := fun s =>
      if s = "urlverification" then
        .ok { ty := some "url_verification", challenge := some "TEST_CHALLENGE" }
      else
        .ok { ty := some "event_callback", challenge := none }
    emit := fun _ => .ok { status := some 200, body := none }
    now := 1000
    verboseErrors := false }

/-- The concrete collaborators with verbose errors (development mode)
enabled. -/
def depsDevW : HandlerDeps :=
  { depsW with verboseErrors := true }

/-- A concrete request carrying a correctly signed, fresh url_verification
body. -/
def reqUrlW : InboundRequest :=
  { timestamp := 900
    signature := computedSignature macW "SIGNING_SECRET" 900 "urlverification"
    hasParsedBody := false
    rawBodyAttr := none
    streamBody := .ok "urlverification" }

/-- A concrete request whose timestamp is 1000 seconds older than the
verifier clock, with an otherwise correct signature. -/
def reqStaleW : InboundRequest :=
  { timestamp := 0
    signature := computedSignature macW "SIGNING_SECRET" 0 "eventbody"
    hasParsedBody := false
    rawBodyAttr := none
    streamBody := .ok "eventbody" }

/-- A concrete request whose body was pre-parsed by the transport without
the raw bytes being preserved. -/
def reqParsedOnlyW : InboundRequest :=
  { timestamp := 900
    signature := computedSignature macW "SIGNING_SECRET" 900 "eventbody"
    hasParsedBody := true
    rawBodyAttr := none
    streamBody := .ok "eventbody" }

/-- A concrete request whose body read fails with the message test error. -/
def reqFailW : InboundRequest :=
  { timestamp := 900
    signature := computedSignature macW "SIGNING_SECRET" 900 "eventbody"
    hasParsedBody := false
    rawBodyAttr := none
    streamBody := .error "test error" }

/-! ## Claims about the inbound handler -/

/-- C1: for every inbound request with a valid signature and fresh
timestamp whose body parses to JSON with type url_verification, the handler
responds with status 200 and a body echoing the challenge value of the
request verbatim, and the application event consumer is not invoked (the
emitted list is empty). -/
theorem C1_url_verification_challenge (deps : HandlerDeps) (secret : String)
    (req : InboundRequest) (raw c : String)
    (hacq : acquireBody req = .ok raw)
    (hfresh : (deps.now - req.timestamp).natAbs ≤ 300)
    (hsig : req.signature = computedSignature deps.mac secret req.timestamp raw)
    (hparse : deps.parse raw =
      .ok { ty := some "url_verification", challenge := some c }) :
    createHTTPHandler deps secret req =
      { status := 200, body := some c, identificationHeader := true,
        emitted := [] } := by
  have hnot : ¬ 300 < (deps.now - req.timestamp).natAbs := Nat.not_lt.mpr hfresh
  simp [createHTTPHandler, hacq, verifyRequestSignature, hnot, hsig,
    handleVerified, hparse]

/-- C1 witness: the concrete url_verification request satisfies every
hypothesis and the handler echoes TEST_CHALLENGE with status 200 without
invoking the consumer. -/
theorem C1_url_verification_challenge_witness :
    acquireBody reqUrlW = .ok "urlverification" ∧
    (depsW.now - reqUrlW.timestamp).natAbs ≤ 300 ∧
    reqUrlW.signature =
      computedSignature depsW.mac "SIGNING_SECRET" reqUrlW.timestamp
        "urlverification" ∧
    depsW.parse "urlverification" =
      .ok { ty := some "url_verification", challenge := some "TEST_CHALLENGE" } ∧
    createHTTPHandler depsW "SIGNING_SECRET" reqUrlW =
      { status := 200, body := some "TEST_CHALLENGE",
        identificationHeader := true, emitted := [] } :=
  ⟨rfl, by norm_num [depsW, reqUrlW], rfl, rfl,
    C1_url_verification_challenge depsW "SIGNING_SECRET" reqUrlW
      "urlverification" "TEST_CHALLENGE" rfl (by norm_num [depsW, reqUrlW])
      rfl rfl⟩

/-- C2: a timestamp farther than five minutes from the verifier clock makes
verification fail with the stale classification whatever the signature
header holds (so in particular also when it is the correct signature), and
every request rejected by the verifier, for either failure cause, gets the
identical response with status 404, making the two causes externally
indistinguishable. -/
theorem C2_stale_timestamp_and_uniform_404 (deps : HandlerDeps)
    (secret : String) (req : InboundRequest) (raw : String)
    (hacq : acquireBody req = .ok raw) :
    (300 < (deps.now - req.timestamp).natAbs →
      verifyRequestSignature deps.mac secret req.timestamp req.signature raw
        deps.now = .error .staleTimestamp) ∧
    (∀ e, verifyRequestSignature deps.mac secret req.timestamp req.signature
        raw deps.now = .error e →
      createHTTPHandler deps secret req =
        { status := 404, body := none, identificationHeader := true,
          emitted := [] }) := by
  constructor
  · intro h
    simp [verifyRequestSignature, h]
  · intro e he
    simp [createHTTPHandler, hacq, he]

/-- C2 witness: the concrete request whose timestamp is 1000 seconds old
carries the correct signature, yet is classified stale and answered with
status 404 and an empty body. -/
theorem C2_stale_timestamp_and_uniform_404_witness :
    acquireBody reqStaleW = .ok "eventbody" ∧
    300 < (depsW.now - reqStaleW.timestamp).natAbs ∧
    reqStaleW.signature =
      computedSignature depsW.mac "SIGNING_SECRET" reqStaleW.timestamp
        "eventbody" ∧
    createHTTPHandler depsW "SIGNING_SECRET" reqStaleW =
      { status := 404, body := none, identificationHeader := true,
        emitted := [] } := by
  have h := C2_stale_timestamp_and_uniform_404 depsW "SIGNING_SECRET"
    reqStaleW "eventbody" rfl
  have hstale : 300 < (depsW.now - reqStaleW.timestamp).natAbs := by
    norm_num [depsW, reqStaleW]
  exact ⟨rfl, hstale, rfl, h.2 .staleTimestamp (h.1 hstale)⟩

/-- C3: a request whose body the transport layer already parsed into
structured form without preserving the original raw bytes is rejected as
unverifiable with status 500. -/
theorem C3_parsed_body_without_raw_bytes (deps : HandlerDeps)
    (secret : String) (req : InboundRequest)
    (hb : req.hasParsedBody = true) (hraw : req.rawBodyAttr = none) :
    (createHTTPHandler deps secret req).status = 500 := by
  simp [createHTTPHandler, acquireBody, hb, hraw, internalFailure]

/-- C3 witness: the concrete pre-parsed request without raw bytes is
answered with status 500. -/
theorem C3_parsed_body_without_raw_bytes_witness :
    reqParsedOnlyW.hasParsedBody = true ∧
    reqParsedOnlyW.rawBodyAttr = none ∧
    (createHTTPHandler depsW "SIGNING_SECRET" reqParsedOnlyW).status = 500 :=
  ⟨rfl, rfl,
    C3_parsed_body_without_raw_bytes depsW "SIGNING_SECRET" reqParsedOnlyW
      rfl rfl⟩

/-- Concrete collaborators whose JSON parse always fails, development mode
enabled. -/
def depsBadParseW : HandlerDeps :=
  { depsW with
    parse := fun _ => .error "unparseable body"
    verboseErrors := true }

/-- Concrete collaborators whose application consumer always rejects,
development mode enabled. -/
def depsBadEmitW : HandlerDeps :=
  { depsW with
    emit := fun _ => .error "consumer failure"
    verboseErrors := true }

/-- A concrete request carrying a correctly signed, fresh event body. -/
def reqEventW : InboundRequest :=
  { timestamp := 900
    signature := computedSignature macW "SIGNING_SECRET" 900 "eventbody"
    hasParsedBody := false
    rawBodyAttr := none
    streamBody := .ok "eventbody" }

/-- C4: every unexpected internal failure during inbound handling, whether
a failing body read, a verified body that fails to parse as JSON, or a
rejecting application consumer, yields status 500 with an empty response
body unless the verbose-errors mode is enabled, in which case the body is
exactly the message of the error; the handler is a total function, so no
inbound error propagates past it as an unhandled fault. -/
theorem C4_internal_failure_500 (deps : HandlerDeps) (secret : String)
    (req : InboundRequest) (raw msg : String) (pb : ParsedBody)
    (hfail :
      (req.hasParsedBody = false ∧ req.streamBody = .error msg) ∨
      (acquireBody req = .ok raw ∧
        verifyRequestSignature deps.mac secret req.timestamp req.signature
          raw deps.now = .ok () ∧
        deps.parse raw = .error msg) ∨
      (acquireBody req = .ok raw ∧
        verifyRequestSignature deps.mac secret req.timestamp req.signature
          raw deps.now = .ok () ∧
        deps.parse raw = .ok pb ∧
        pb.ty ≠ some "url_verification" ∧
        deps.emit pb = .error msg)) :
    createHTTPHandler deps secret req =
      { status := 500
        body := if deps.verboseErrors then some msg else none
        identificationHeader := true
        emitted := [] } := by
  rcases hfail with ⟨hb, hstream⟩ | ⟨hacq, hv, hparse⟩ |
    ⟨hacq, hv, hparse, hty, hemit⟩
  · simp [createHTTPHandler, acquireBody, hb, hstream, internalFailure]
  · simp [createHTTPHandler, hacq, hv, handleVerified, hparse,
      internalFailure]
  · simp [createHTTPHandler, hacq, hv, handleVerified, hparse, hty, hemit,
      internalFailure]

/-- C4 witness: the failing body read is answered with status 500 (body
test error in development mode, empty body otherwise), the unparseable
verified body with status 500 and its parse error message, and the
rejecting consumer with status 500 and its failure message. -/
theorem C4_internal_failure_500_witness :
    createHTTPHandler depsDevW "SIGNING_SECRET" reqFailW =
      { status := 500, body := some "test error",
        identificationHeader := true, emitted := [] } ∧
    createHTTPHandler depsW "SIGNING_SECRET" reqFailW =
      { status := 500, body := none,
        identificationHeader := true, emitted := [] } ∧
    createHTTPHandler depsBadParseW "SIGNING_SECRET" reqEventW =
      { status := 500, body := some "unparseable body",
        identificationHeader := true, emitted := [] } ∧
    createHTTPHandler depsBadEmitW "SIGNING_SECRET" reqEventW =
      { status := 500, body := some "consumer failure",
        identificationHeader := true, emitted := [] } := by
  refine ⟨?_, ?_, ?_, ?_⟩
  · simpa [depsDevW, depsW] using
      C4_internal_failure_500 depsDevW "SIGNING_SECRET" reqFailW "unused"
        "test error" { ty := none, challenge := none } (Or.inl ⟨rfl, rfl⟩)
  · simpa [depsW] using
      C4_internal_failure_500 depsW "SIGNING_SECRET" reqFailW "unused"
        "test error" { ty := none, challenge := none } (Or.inl ⟨rfl, rfl⟩)
  · simpa [depsBadParseW, depsW] using
      C4_internal_failure_500 depsBadParseW "SIGNING_SECRET" reqEventW
        "eventbody" "unparseable body" { ty := none, challenge := none }
        (Or.inr (Or.inl ⟨rfl, rfl, rfl⟩))
  · simpa [depsBadEmitW, depsW] using
      C4_internal_failure_500 depsBadEmitW "SIGNING_SECRET" reqEventW
        "eventbody" "consumer failure"
        { ty := some "event_callback", challenge := none }
        (Or.inr (Or.inr ⟨rfl, rfl, rfl, by decide, rfl⟩))

/-- C5: every response of the inbound handler, on every branch, carries the
identification header. -/
theorem C5_identification_header (deps : HandlerDeps) (secret : String)
    (req : InboundRequest) :
    (createHTTPHandler deps secret req).identificationHeader = true := by
  cases hacq : acquireBody req with
  | error msg => simp [createHTTPHandler, hacq, internalFailure]
  | ok raw =>
    cases hv : verifyRequestSignature deps.mac secret req.timestamp
        req.signature raw deps.now with
    | error e => simp [createHTTPHandler, hacq, hv]
    | ok u =>
      cases hp : deps.parse raw with
      | error m =>
        simp [createHTTPHandler, handleVerified, internalFailure, hacq, hv, hp]
      | ok pb =>
        by_cases hty : pb.ty = some "url_verification"
        · simp [createHTTPHandler, handleVerified, hacq, hv, hp, hty]
        · cases he : deps.emit pb with
          | error m =>
            simp [createHTTPHandler, handleVerified, internalFailure, hacq,
              hv, hp, hty, he]
          | ok er =>
            simp [createHTTPHandler, handleVerified, hacq, hv, hp, hty, he]

/-! ## Claim about isFalsy -/

/-- C10: isFalsy returns true exactly for the number 0, the empty string,
null, undefined and NaN; in particular isFalsy on the boolean false returns
false, even though false is a falsy value in JavaScript. -/
theorem C10_isFalsy_characterization (x : JSVal) :
    (isFalsy x = true ↔
      (x = .num 0 ∨ x = .str "" ∨ x = .null ∨ x = .undefined ∨ x = .nan)) ∧
    isFalsy (JSVal.bool false) = false := by
  refine ⟨?_, rfl⟩
  cases x <;> simp [isFalsy, strictEq, jsTypeof, numberIsNaN]

/-! ## Claims about the outbound dispatch path -/

/-- A concrete transport whose response body stands for a platform failure
payload with ok false and error code invalid_auth. -/
def postOkFalseW : String → Except String String := fun _ => .ok "okfalse"

/-- A concrete JSON parse recognizing that failure payload. -/
def parseOkFalseW : String → Except String SlackJson := fun s =>
  if s = "okfalse" then .ok { ok := false, error := some "invalid_auth" }
  else .error "unexpected body"

/-- C6: evidence of the divergence between the claim and the stubbed code.
On a concrete call whose transport response carries ok false with the error
code invalid_auth, apiCall submits nothing to the request queue, issues one
direct transport call with no retry controller, and returns the failure
payload as a successful result instead of classifying it as a failure with
the platform-reported error code. -/
theorem C6_apiCall_stub_evaluation :
    apiCall postOkFalseW parseOkFalseW "https://slack.com/api/" "api.test" =
      (.ok { ok := false, error := some "invalid_auth" },
       { queueSubmits := 0, transportCalls := 1 }) := rfl

/-- C7 counterexample: at a concrete input with a callback supplied, no
unit of work is submitted to the request queue, refuting the part of the
claim that says the full queue-and-retry pipeline is still performed. -/
theorem C7_counterexample_no_queue_submission :
    ¬ 0 < (apiCallWithCallback postOkFalseW parseOkFalseW
        "https://slack.com/api/" "api.test").2.queueSubmits := by
  decide

/-- C7 (amended): for every call with a callback supplied, the same call
pipeline as the promise path is performed (identical effects), and the
callback is invoked exactly once, with either an error or a result and
never both; the dispatcher never throws synchronously, every outcome being
delivered through the callback invocation list. -/
theorem C7_callback_exactly_once (post : String → Except String String)
    (parseJson : String → Except String SlackJson)
    (slackApiUrl method : String) :
    (apiCallWithCallback post parseJson slackApiUrl method).1.length = 1 ∧
    ((apiCallWithCallback post parseJson slackApiUrl method).1.all fun c =>
      c.err.isSome != c.result.isSome) = true ∧
    (apiCallWithCallback post parseJson slackApiUrl method).2 =
      (apiCall post parseJson slackApiUrl method).2 := by
  rcases h : apiCall post parseJson slackApiUrl method with ⟨r, eff⟩
  cases r <;> simp [apiCallWithCallback, h]

/-! ## Claim about the concurrency-limited queue -/

/-- C8: every queue state reachable from the empty queue, under any
submission pattern including bursts and immediately failing tasks, has at
most concurrency units of work executing simultaneously, and the admission
history followed by the waiting line equals the submission history, so
waiting tasks are admitted in submission order and no task is skipped while
an earlier-submitted task still waits. -/
theorem C8_queue_invariant (k : Nat) (s : QueueState)
    (h : QueueReachable k s) :
    s.running.length ≤ s.concurrency ∧
    s.admitted ++ s.waiting = s.submitted := by
  induction h with
  | refl => simp [QueueState.init]
  | tail hsteps hstep ih =>
    rename_i b c
    cases hstep with
    | submit t =>
      refine ⟨ih.1, ?_⟩
      simp only [← List.append_assoc, ih.2]
    | admitNext t rest hlt hw =>
      constructor
      · simpa using hlt
      · have h2 := ih.2
        rw [hw] at h2
        simpa [List.append_assoc] using h2
    | finish t outcomeOk hmem =>
      exact ⟨le_trans (List.Sublist.length_le (List.erase_sublist t b.running))
        ih.1, ih.2⟩

/-- The state reached with concurrency 1 after submitting task 0, admitting
it, and submitting task 1 while task 0 still runs. -/
def qFinalW : QueueState :=
  { concurrency := 1, waiting := [1], running := [0], admitted := [0],
    submitted := [0, 1] }

/-- C8 witness: the concrete state above is reachable, and the theorem
yields the concurrency bound and the FIFO equation on it. -/
theorem C8_queue_invariant_witness :
    QueueReachable 1 qFinalW ∧
    (qFinalW.running.length ≤ qFinalW.concurrency ∧
     qFinalW.admitted ++ qFinalW.waiting = qFinalW.submitted) := by
  have h1 : QueueStep (QueueState.init 1)
      { concurrency := 1, waiting := [0], running := [], admitted := [],
        submitted := [0] } :=
    QueueStep.submit (QueueState.init 1) 0
  have h2 : QueueStep
      { concurrency := 1, waiting := [0], running := [], admitted := [],
        submitted := [0] }
      { concurrency := 1, waiting := [], running := [0], admitted := [0],
        submitted := [0] } :=
    QueueStep.admitNext _ 0 [] (by decide) rfl
  have h3 : QueueStep
      { concurrency := 1, waiting := [], running := [0], admitted := [0],
        submitted := [0] } qFinalW :=
    QueueStep.submit _ 1
  have hreach : QueueReachable 1 qFinalW :=
    Relation.ReflTransGen.tail
      (Relation.ReflTransGen.tail
        (Relation.ReflTransGen.tail Relation.ReflTransGen.refl h1) h2) h3
  exact ⟨hreach, C8_queue_invariant 1 qFinalW hreach⟩

/-! ## Claims about the backoff policy -/

/-- C9 counterexample: with the per-attempt random factors 1 at attempt 1
and 0 at attempt 2 (both inside the unit interval), base delay 1, factor 2
and cap 300, the jittered delay at attempt 2 is strictly below the delay at
attempt 1, so nextDelay of the jittered policy is not monotonically
non-decreasing in the attempt count. -/
theorem C9_counterexample_not_monotone :
    jitteredExpCappedDelay (fun n => if n = 2 then 0 else 1) 1 2 300 2 <
      jitteredExpCappedDelay (fun n => if n = 2 then 0 else 1) 1 2 300 1 := by
  norm_num [jitteredExpCappedDelay, expCappedDelay]

/-- C9 (amended): with nonnegative base delay and cap, factor at least one
and the per-attempt random factor inside the unit interval, the jittered
delay never exceeds the cap; the underlying exponential-with-cap delay is
monotonically non-decreasing in the attempt count and never exceeds the
cap; and whenever the random source is a fixed constant the jittered delay
is monotonically non-decreasing as well. -/
theorem C9_backoff_capped_and_monotone (r : Nat → ℚ)
    (minTimeout factor maxTimeout : ℚ) (n : Nat)
    (hmin : 0 ≤ minTimeout) (hfac : 1 ≤ factor) (hmax : 0 ≤ maxTimeout)
    (hr0 : 0 ≤ r n) (hr1 : r n ≤ 1) :
    jitteredExpCappedDelay r minTimeout factor maxTimeout n ≤ maxTimeout ∧
    expCappedDelay minTimeout factor maxTimeout n ≤
      expCappedDelay minTimeout factor maxTimeout (n + 1) ∧
    expCappedDelay minTimeout factor maxTimeout n ≤ maxTimeout ∧
    (∀ c, (∀ k, r k = c) →
      jitteredExpCappedDelay r minTimeout factor maxTimeout n ≤
        jitteredExpCappedDelay r minTimeout factor maxTimeout (n + 1)) := by
  have hpow0 : (0 : ℚ) ≤ factor := le_trans zero_le_one hfac
  have hE0 : 0 ≤ expCappedDelay minTimeout factor maxTimeout n :=
    le_min (mul_nonneg hmin (pow_nonneg hpow0 _)) hmax
  have hcap : expCappedDelay minTimeout factor maxTimeout n ≤ maxTimeout :=
    min_le_right _ _
  have hmono : expCappedDelay minTimeout factor maxTimeout n ≤
      expCappedDelay minTimeout factor maxTimeout (n + 1) := by
    unfold expCappedDelay
    refine min_le_min ?_ le_rfl
    exact mul_le_mul_of_nonneg_left
      (pow_le_pow_right₀ hfac (Nat.sub_le_sub_right (Nat.le_succ n) 1)) hmin
  refine ⟨?_, hmono, hcap, ?_⟩
  · exact le_trans (mul_le_of_le_one_left hE0 hr1) hcap
  · intro c hc
    have hc0 : 0 ≤ c := hc n ▸ hr0
    simp only [jitteredExpCappedDelay, hc n, hc (n + 1)]
    exact mul_le_mul_of_nonneg_left hmono hc0

/-- C9 witness: at base 1, factor 2, cap 300, attempt 3 and the fixed
random factor one half, every hypothesis holds and both the cap bound and
the constant-source monotonicity hold. -/
theorem C9_backoff_capped_and_monotone_witness :
    (0 : ℚ) ≤ 1 ∧ (1 : ℚ) ≤ 2 ∧ (0 : ℚ) ≤ 300 ∧
    (0 : ℚ) ≤ (1 : ℚ) / 2 ∧ (1 : ℚ) / 2 ≤ 1 ∧
    jitteredExpCappedDelay (fun _ => (1 : ℚ) / 2) 1 2 300 3 ≤ 300 ∧
    jitteredExpCappedDelay (fun _ => (1 : ℚ) / 2) 1 2 300 3 ≤
      jitteredExpCappedDelay (fun _ => (1 : ℚ) / 2) 1 2 300 4 := by
  have h := C9_backoff_capped_and_monotone (fun _ => (1 : ℚ) / 2) 1 2 300 3
    (by norm_num) (by norm_num) (by norm_num) (by norm_num) (by norm_num)
  exact ⟨by norm_num, by norm_num, by norm_num, by norm_num, by norm_num,
    h.1, h.2.2.2 ((1 : ℚ) / 2) (fun k => rfl)⟩

end Spec2Proof
